import Mathlib

/-!
Verification of the pyejabberd client library (src/pyejabberd/client.py and
src/pyejabberd/definitions.py): a shallow embedding of the descriptor-driven
XML-RPC dispatcher, its argument validation loop, and the per-operation
request/response hooks, together with theorems settling the specification
claims about them.

The repository modules pyejabberd/core/definitions.py (the API base class and
APIArgument), pyejabberd/core/arguments.py (the validators),
pyejabberd/core/errors.py and pyejabberd/errors.py (the error taxonomy) and
pyejabberd/utils.py (format_password_hash_sha) are referenced by the two
embedded files but are not part of the sources; definitions derived from them
are modelled from the spec and say so in their doc comments.
-/

set_option autoImplicit false
set_option linter.unusedVariables false

namespace Pyejabberd

/-- A Python value as it appears in this library: XML-RPC scalars, lists and
string-keyed structs (xmlrpclib structs always have textual member names),
plus None. -/
inductive PyVal where
  | none
  | str (s : String)
  | int (n : Int)
  | bool (b : Bool)
  | list (xs : List PyVal)
  | dict (d : List (String × PyVal))

/-- A Python dict with string keys, as an association list in insertion order.
Well-formed Python dicts never hold a key twice; all operations below use the
first occurrence of a key, matching that invariant. -/
abbrev Dict := List (String × PyVal)

/-- Python `d[k]` as a total lookup: `k in d` holds iff the result is `some`. -/
def dlookup : Dict → String → Option PyVal
  | [], _ => Option.none
  | (k, v) :: rest, key => if k == key then some v else dlookup rest key

/-- Python `d.get(k, default)`. -/
def dget (d : Dict) (key : String) (default : PyVal) : PyVal :=
  (dlookup d key).getD default

/-- Python `k in d`. -/
def dcontains (d : Dict) (key : String) : Bool :=
  (dlookup d key).isSome

/-- Python `d[k] = v`: replace the binding in place when the key exists,
append it otherwise. -/
def dset : Dict → String → PyVal → Dict
  | [], k, v => [(k, v)]
  | (k', v') :: rest, k, v =>
      if k' == k then (k, v) :: rest else (k', v') :: dset rest k v

/-- Python `d.update(e)`: set every binding of `e` into `d`, in order. -/
def dupdate (d e : Dict) : Dict :=
  e.foldl (fun acc kv => dset acc kv.1 kv.2) d

/-- Python `d.pop(k)`: the removed value and the remaining dict, or `none`
(a KeyError in Python) when the key is absent. -/
def dpop : Dict → String → Option (PyVal × Dict)
  | [], _ => Option.none
  | (k', v') :: rest, k =>
      if k' == k then some (v', rest)
      else (dpop rest k).map (fun p => (p.1, (k', v') :: p.2))

/-- Python `str(v)` restricted to what the library interpolates into error
messages via a percent-s format. -/
def pyRepr : PyVal → String
  | .none => "None"
  | .str s => s
  | .int n => toString n
  | .bool b => if b then "True" else "False"
  | .list _ => "<list>"
  | .dict _ => "<dict>"

/-- Python equality of a value against an int literal, as in the response
transforms `response.get(res) == 0` and `== 1`: ints compare numerically,
bools coerce (True equals 1, False equals 0), and every other type compares
unequal to an int. -/
def pyEqInt : PyVal → Int → Bool
  | .int m, n => m == n
  | .bool b, n => (if b then (1 : Int) else 0) == n
  | _, _ => false

/-- The error taxonomy of the library, plus the built-in Python exceptions the
embedded code can raise. IllegalArgumentError, ValidationError and
UserAlreadyRegisteredError are modelled from the spec (section 7): the modules
pyejabberd/core/errors.py and pyejabberd/errors.py declaring them are not
under the sources; the spec lists them as distinct error classes. -/
inductive PyError where
  | illegalArgument (msg : String)
  | validationError (msg : String)
  | userAlreadyRegistered (msg : String)
  | typeError (msg : String)
  | keyError (msg : String)
  | valueError (msg : String)
  | attributeError (msg : String)
deriving DecidableEq

def PyError.isIllegalArgument : PyError → Bool
  | .illegalArgument _ => true
  | _ => false

def PyError.isValidationError : PyError → Bool
  | .validationError _ => true
  | _ => false

def PyError.isTypeError : PyError → Bool
  | .typeError _ => true
  | _ => false

/-- Whether a call outcome is an IllegalArgumentError. -/
def outcomeIsIllegalArgument : Except PyError PyVal → Bool
  | .error e => e.isIllegalArgument
  | .ok _ => false

/-- Whether a call outcome is a ValidationError. -/
def outcomeIsValidationError : Except PyError PyVal → Bool
  | .error e => e.isValidationError
  | .ok _ => false

/-- Whether a call outcome is a TypeError. -/
def outcomeIsTypeError : Except PyError PyVal → Bool
  | .error e => e.isTypeError
  | .ok _ => false

/-- Modelled from the spec: the four validator variants of
pyejabberd/core/arguments.py, which is not under the sources. Spec section
4.3: string, integer, positive-integer and boolean validators. -/
inductive ValidatorKind where
  | vString
  | vInteger
  | vPositiveInteger
  | vBoolean
deriving DecidableEq

/-- Modelled from the spec: running a validator against a single value
(core/arguments.py is not under the sources). Spec sections 4.1 and 4.3: the
string validator fails unless the value is textual, integer unless an integer,
positive-integer additionally requires the value to be positive, boolean
unless a boolean; a `None` value (an optional argument left absent) is
accepted; failures surface as ValidationError carrying the offending value. -/
def runValidator : ValidatorKind → PyVal → Except PyError Unit
  | .vString, .str _ => .ok ()
  | .vString, .none => .ok ()
  | .vString, v => .error (.validationError ("not a valid string value: " ++ pyRepr v))
  | .vInteger, .int _ => .ok ()
  | .vInteger, .none => .ok ()
  | .vInteger, v => .error (.validationError ("not a valid integer value: " ++ pyRepr v))
  | .vPositiveInteger, .int n =>
      if 0 < n then .ok ()
      else .error (.validationError ("not a valid positive integer value: " ++ toString n))
  | .vPositiveInteger, .none => .ok ()
  | .vPositiveInteger, v => .error (.validationError ("not a valid positive integer value: " ++ pyRepr v))
  | .vBoolean, .bool _ => .ok ()
  | .vBoolean, .none => .ok ()
  | .vBoolean, v => .error (.validationError ("not a valid boolean value: " ++ pyRepr v))

/-- An argument descriptor: name, required flag, validator. Modelled from the
spec for the missing pyejabberd/core/definitions.py APIArgument class (spec
section 3); the required flag defaults to true, which is what the spec
demands of every argument the enumerated operations declare (a caller
omitting any of them must trigger the missing-required-argument error). -/
structure APIArgument where
  name : String
  required : Bool
  validator : ValidatorKind
deriving DecidableEq

/-- `StringArgument(name)` from core/arguments.py, modelled from the spec. -/
def StringArgument (name : String) : APIArgument :=
  ⟨name, true, .vString⟩

/-- `IntegerArgument(name)` from core/arguments.py, modelled from the spec. -/
def IntegerArgument (name : String) : APIArgument :=
  ⟨name, true, .vInteger⟩

/-- `PositiveIntegerArgument(name)` from core/arguments.py, modelled from the
spec. -/
def PositiveIntegerArgument (name : String) : APIArgument :=
  ⟨name, true, .vPositiveInteger⟩

/-- `BooleanArgument(name)` from core/arguments.py, modelled from the spec. -/
def BooleanArgument (name : String) : APIArgument :=
  ⟨name, true, .vBoolean⟩

/-- The operation classes of src/pyejabberd/definitions.py, one constructor
per API subclass. -/
inductive ApiOp where
  | echo
  | registeredUsers
  | register
  | unRegister
  | changePassword
  | checkPasswordHash
  | setNickname
  | mucOnlineRooms
  | createRoom
  | destroyRoom
  | getRoomOptions
deriving DecidableEq

/-- The `method` class attribute of each operation (definitions.py). -/
def API.method : ApiOp → String
  | .echo => "echothisnew"
  | .registeredUsers => "registered_users"
  | .register => "register"
  | .unRegister => "unregister"
  | .changePassword => "change_password"
  | .checkPasswordHash => "check_password_hash"
  | .setNickname => "set_nickname"
  | .mucOnlineRooms => "muc_online_rooms"
  | .createRoom => "create_room"
  | .destroyRoom => "destroy_room"
  | .getRoomOptions => "get_room_options"

/-- The `arguments` class attribute of each operation (definitions.py). -/
def API.arguments : ApiOp → List APIArgument
  | .echo => [StringArgument "sentence"]
  | .registeredUsers => [StringArgument "host"]
  | .register => [StringArgument "user", StringArgument "host", StringArgument "password"]
  | .unRegister => [StringArgument "user", StringArgument "host"]
  | .changePassword => [StringArgument "user", StringArgument "host", StringArgument "newpass"]
  | .checkPasswordHash =>
      [StringArgument "user", StringArgument "host", StringArgument "passwordhash",
       StringArgument "hashmethod"]
  | .setNickname => [StringArgument "user", StringArgument "host", StringArgument "nickname"]
  | .mucOnlineRooms => [StringArgument "host"]
  | .createRoom => [StringArgument "name", StringArgument "service", StringArgument "host"]
  | .destroyRoom => [StringArgument "name", StringArgument "service", StringArgument "host"]
  | .getRoomOptions => [StringArgument "name", StringArgument "service"]

/-- Modelled from the spec: the `authenticate` flag lives on the API base
class (core/definitions.py, not under the sources) and no operation in
src/pyejabberd/definitions.py overrides it; the spec (sections 4.2 and 8)
declares every enumerated operation to carry authenticate equal to false. -/
def API.authenticate : ApiOp → Bool := fun _ => false

/-! ## Hook bodies, as written in src/pyejabberd/definitions.py

Each operation overrides some of the three hooks of the API base class. The
definitions below embed the override bodies. How `_call_api` invokes them (and
the Python arity errors that invocation runs into) is modelled separately by
the `invoke` functions further down. -/

/-- Body of Echo.transform_response (definitions.py line 15): return
`response.get(repeated)`. -/
def Echo.transform_response (response : Dict) : PyVal :=
  dget response "repeated" .none

/-- Body of RegisteredUsers.transform_response (definitions.py line 23):
return `response.get(users, [])`. -/
def RegisteredUsers.transform_response (response : Dict) : PyVal :=
  dget response "users" (.list [])

/-- Body of Register.validate_response (definitions.py lines 31 to 34): when
`response.get(res) == 1`, raise UserAlreadyRegisteredError naming
`arguments.get(user)`. -/
def Register.validate_response (arguments response : Dict) : Except PyError Unit :=
  if pyEqInt (dget response "res" .none) 1 then
    .error (.userAlreadyRegistered
      ("User with username " ++ pyRepr (dget arguments "user" .none) ++ " already exists"))
  else .ok ()

/-- Body of Register.transform_response (definitions.py line 36): return
`response.get(res) == 0`. -/
def Register.transform_response (response : Dict) : PyVal :=
  .bool (pyEqInt (dget response "res" .none) 0)

/-- Body of UnRegister.transform_response (definitions.py line 44). -/
def UnRegister.transform_response (response : Dict) : PyVal :=
  .bool (pyEqInt (dget response "res" .none) 0)

/-- Body of ChangePassword.transform_response (definitions.py line 52). -/
def ChangePassword.transform_response (response : Dict) : PyVal :=
  .bool (pyEqInt (dget response "res" .none) 0)

/-- Body of CheckPasswordHash.transform_arguments (definitions.py lines 61 to
67): pop the plaintext `password` from the keyword arguments (a KeyError when
it is absent), hash it, and update the dict with the `passwordhash` and the
fixed `hashmethod` of "sha". `format_password_hash_sha` lives in
pyejabberd/utils.py, which is not under the sources; it is modelled from the
spec as a hash function over textual passwords, kept abstract as the `sha1`
parameter (hashing a non-textual value is a TypeError inside hashlib). -/
def CheckPasswordHash.transform_arguments (sha1 : String → String) (kwargs : Dict) :
    Except PyError Dict :=
  match dpop kwargs "password" with
  | Option.none => .error (.keyError "password")
  | some (pw, rest) =>
      match pw with
      | .str p =>
          .ok (dupdate rest [("passwordhash", .str (sha1 p)), ("hashmethod", .str "sha")])
      | _ => .error (.typeError "format_password_hash_sha expects a textual password")

/-- Body of CheckPasswordHash.transform_response (definitions.py line 69). -/
def CheckPasswordHash.transform_response (response : Dict) : PyVal :=
  .bool (pyEqInt (dget response "res" .none) 0)

/-- Body of SetNickname.transform_response (definitions.py line 77). -/
def SetNickname.transform_response (response : Dict) : PyVal :=
  .bool (pyEqInt (dget response "res" .none) 0)

/-- One step of the list comprehension in MucOnlineRooms.transform_response:
`result_dict.get(room)` for an element of the iterated value; a non-dict
element has no `get` attribute. -/
def MucOnlineRooms.roomOf : PyVal → Except PyError PyVal
  | .dict d => .ok (dget d "room" .none)
  | _ => .error (.attributeError "object has no attribute get")

def MucOnlineRooms.roomsOf : List PyVal → Except PyError (List PyVal)
  | [] => .ok []
  | x :: xs =>
      match MucOnlineRooms.roomOf x with
      | .error e => .error e
      | .ok r =>
          match MucOnlineRooms.roomsOf xs with
          | .error e => .error e
          | .ok rs => .ok (r :: rs)

/-- Body of MucOnlineRooms.transform_response (definitions.py line 85):
`[result_dict.get(room) for result_dict in response.get(rooms, \x7b\x7d)]`.
Note the default is an empty dict, not an empty list: iterating a dict yields
its keys (strings, which have no `get` attribute), so a missing or empty
`rooms` entry yields the empty list while a non-empty dict raises an
AttributeError on its first key; a non-iterable value is a TypeError. -/
def MucOnlineRooms.transform_response (response : Dict) : Except PyError PyVal :=
  match dget response "rooms" (.dict []) with
  | .list xs =>
      match MucOnlineRooms.roomsOf xs with
      | .error e => .error e
      | .ok rs => .ok (.list rs)
  | .dict [] => .ok (.list [])
  | .dict (_ :: _) => .error (.attributeError "object has no attribute get")
  | .str s =>
      if s.isEmpty then .ok (.list [])
      else .error (.attributeError "object has no attribute get")
  | _ => .error (.typeError "object is not iterable")

/-- Body of CreateRoom.transform_response (definitions.py line 93). -/
def CreateRoom.transform_response (response : Dict) : PyVal :=
  .bool (pyEqInt (dget response "res" .none) 0)

/-- Body of DestroyRoom.transform_response (definitions.py line 101). -/
def DestroyRoom.transform_response (response : Dict) : PyVal :=
  .bool (pyEqInt (dget response "res" .none) 0)

/-- One iteration of the loop in GetRoomOptions.transform_response
(definitions.py lines 111 to 116): skip entries without an `option` key (or
ones bound to None), unpack the pair, and bind the value under the name in the
accumulated result. Python evaluates the right-hand side of the subscript
assignment first, so the `value` lookup precedes the `name` lookup. The
embedding uses string-keyed dicts throughout, so a non-textual option name
(which plain Python would accept as a dict key) is reported as a TypeError. -/
def GetRoomOptions.step (result : Dict) (option_dict : PyVal) : Except PyError Dict :=
  match option_dict with
  | .dict od =>
      match dget od "option" .none with
      | .none => .ok result
      | .list [nameD, valueD] =>
          match nameD, valueD with
          | .dict nd, .dict vd =>
              match dlookup vd "value" with
              | Option.none => .error (.keyError "value")
              | some vv =>
                  match dlookup nd "name" with
                  | Option.none => .error (.keyError "name")
                  | some nv =>
                      match nv with
                      | .str s => .ok (dset result s vv)
                      | _ => .error (.typeError "option name is not textual")
          | _, _ => .error (.typeError "indexing a non-dict pair component")
      | .list _ => .error (.valueError "cannot unpack the option into two values")
      | _ => .error (.typeError "cannot unpack a non-sequence option")
  | _ => .error (.attributeError "object has no attribute get")

def GetRoomOptions.fold (result : Dict) : List PyVal → Except PyError Dict
  | [] => .ok result
  | x :: xs =>
      match GetRoomOptions.step result x with
      | .error e => .error e
      | .ok acc => GetRoomOptions.fold acc xs

/-- Body of GetRoomOptions.transform_response (definitions.py lines 109 to
117): fold the `options` list of (name, value) pair entries into a single
mapping. The `options` default is an empty list; as in
MucOnlineRooms.transform_response, iterating a dict yields string keys and a
non-iterable value is a TypeError. -/
def GetRoomOptions.transform_response (response : Dict) : Except PyError Dict :=
  match dget response "options" (.list []) with
  | .list xs => GetRoomOptions.fold [] xs
  | .dict [] => .ok []
  | .dict (_ :: _) => .error (.attributeError "object has no attribute get")
  | .str s =>
      if s.isEmpty then .ok []
      else .error (.attributeError "object has no attribute get")
  | _ => .error (.typeError "object is not iterable")

/-! ## Hook invocation, as performed by EjabberdAPIClient._call_api

client.py invokes the three hooks with the call context as an extra leading
positional argument: line 183 runs
`arguments = api.transform_arguments(self.context, **arguments)`, line 207
runs `api.validate_response(self.context, api, arguments, response)` and line
210 runs `result = api.transform_response(self.context, api, arguments,
response)`. The overrides in src/pyejabberd/definitions.py declare one fewer
parameter than those invocations supply, so in Python the invocation raises a
TypeError before the override body runs. The `invoke` functions below model
the invocation as _call_api performs it: the hook resolved on the operation,
applied to the arguments of the call site, with the arity mismatches made
explicit. -/

def transformArgumentsArityMsg : String :=
  "transform_arguments() takes exactly 1 argument (2 given)"

def validateResponseArityMsg : String :=
  "validate_response() takes exactly 4 arguments (5 given)"

def transformResponseArityMsg : String :=
  "transform_response() takes exactly 4 arguments (5 given)"

/-- The transform_arguments invocation of client.py line 183. Every operation
except CheckPasswordHash inherits the hook from the API base class
(core/definitions.py, not under the sources); that default is modelled from
the spec: the dispatch contract passes the call context to the hook (spec
section 4.1 step 2) and the client layer injects host and service from the
Call Context into the arguments before dispatch (spec section 4.2), so the
default merges the context into the caller arguments, context bindings
winning as in `kwargs.update(context)`; spec section 9 records the exact
default signature as an open question. CheckPasswordHash overrides the hook
(definitions.py line 61) with `def transform_arguments(self, **kwargs)`,
which accepts no positional parameter, so the invocation with the context as
a positional argument raises a TypeError and the override body
(`CheckPasswordHash.transform_arguments` above) never runs. -/
def invokeTransformArguments (op : ApiOp) (ctx args : Dict) : Except PyError Dict :=
  match op with
  | .checkPasswordHash => .error (.typeError transformArgumentsArityMsg)
  | _ => .ok (dupdate args ctx)

/-- The validate_response invocation of client.py line 207. Only Register
overrides the hook (definitions.py line 31) and its signature takes three
parameters besides self while the invocation supplies four arguments, a
TypeError; every other operation inherits the default from the API base class
(core/definitions.py, not under the sources), modelled from the spec as a
no-op (spec section 4.1 step 6). -/
def invokeValidateResponse (op : ApiOp) (ctx tArgs response : Dict) : Except PyError Unit :=
  match op with
  | .register => .error (.typeError validateResponseArityMsg)
  | _ => .ok ()

/-- The transform_response invocation of client.py line 210. Every operation
in src/pyejabberd/definitions.py overrides transform_response with three
parameters besides self, while the invocation supplies four arguments, so
the invocation raises a TypeError for every operation and no override body
(the per-operation transform_response definitions above) is ever reached. -/
def invokeTransformResponse (op : ApiOp) (ctx tArgs response : Dict) : Except PyError PyVal :=
  .error (.typeError transformResponseArityMsg)

/-- The argument validation loop of _call_api (client.py lines 186 to 195):
for each descriptor in order, raise
IllegalArgumentError("Missing required argument ...") when the argument is
required and its name is absent from the transformed mapping, and otherwise
run the validator of the descriptor against `arguments.get(name)` (None when
absent), stopping at the first error. -/
def validate_arguments : List APIArgument → Dict → Except PyError Unit
  | [], _ => .ok ()
  | d :: rest, args =>
      if d.required && !(dcontains args d.name) then
        .error (.illegalArgument ("Missing required argument \"" ++ d.name ++ "\""))
      else
        match runValidator d.validator (dget args d.name .none) with
        | .error e => .error e
        | .ok _ => validate_arguments rest args

/-- One invocation of the transport proxy: the resolved method name, the
transformed arguments mapping, and the credentials when the call passes them
(`method(self.auth, arguments)`) or `none` for the single-argument form
(`method(arguments)`). -/
structure TransportCall where
  method : String
  args : Dict
  auth : Option Dict

/-- EjabberdAPIClient._call_api (client.py lines 164 to 212), parameterised
over the transport proxy, which is an external collaborator returning a
structured reply or raising. Returns the call outcome together with the list
of transport invocations the call performed (empty exactly when the transport
proxy was never invoked). The `copy.copy(kwargs)` of line 180 and the dict
object identities it protects are modelled separately by `call_api_st`; on
dict values the copy is the identity. -/
def call_api (op : ApiOp) (ctx auth kwargs : Dict)
    (transport : TransportCall → Except PyError Dict) :
    Except PyError PyVal × List TransportCall :=
  match invokeTransformArguments op ctx kwargs with
  | .error e => (.error e, [])
  | .ok tArgs =>
      match validate_arguments (API.arguments op) tArgs with
      | .error e => (.error e, [])
      | .ok _ =>
          let tc : TransportCall :=
            { method := API.method op
              args := tArgs
              auth := if API.authenticate op then some auth else Option.none }
          match transport tc with
          | .error e => (.error e, [tc])
          | .ok response =>
              match invokeValidateResponse op ctx tArgs response with
              | .error e => (.error e, [tc])
              | .ok _ =>
                  match invokeTransformResponse op ctx tArgs response with
                  | .error e => (.error e, [tc])
                  | .ok r => (.ok r, [tc])

/-- The client configuration (client.py constructor, lines 16 to 44). The
host, port, protocol and verbose fields only feed the service URL and the
proxy construction, which belong to the external transport. -/
structure EjabberdAPIClient where
  host : String
  port : Int
  username : String
  password : String
  xmpp_domain : String
  muc_service : String
  protocol : String
  verbose : Bool

/-- The auth property (client.py lines 63 to 74). -/
def EjabberdAPIClient.auth (c : EjabberdAPIClient) : Dict :=
  [("user", .str c.username), ("server", .str c.xmpp_domain), ("password", .str c.password)]

/-- The context property (client.py lines 76 to 86). -/
def EjabberdAPIClient.context (c : EjabberdAPIClient) : Dict :=
  [("host", .str c.xmpp_domain), ("service", .str c.muc_service)]

/-- client.echo (client.py line 96). -/
def EjabberdAPIClient.echo (c : EjabberdAPIClient) (sentence : PyVal)
    (transport : TransportCall → Except PyError Dict) :
    Except PyError PyVal × List TransportCall :=
  call_api .echo c.context c.auth [("sentence", sentence)] transport

/-- client.registered_users (client.py line 104). -/
def EjabberdAPIClient.registered_users (c : EjabberdAPIClient)
    (transport : TransportCall → Except PyError Dict) :
    Except PyError PyVal × List TransportCall :=
  call_api .registeredUsers c.context c.auth [] transport

/-- client.register (client.py line 116): the caller supplies only user and
password. -/
def EjabberdAPIClient.register (c : EjabberdAPIClient) (user password : PyVal)
    (transport : TransportCall → Except PyError Dict) :
    Except PyError PyVal × List TransportCall :=
  call_api .register c.context c.auth [("user", user), ("password", password)] transport

/-- client.unregister (client.py line 126). -/
def EjabberdAPIClient.unregister (c : EjabberdAPIClient) (user : PyVal)
    (transport : TransportCall → Except PyError Dict) :
    Except PyError PyVal × List TransportCall :=
  call_api .unRegister c.context c.auth [("user", user)] transport

/-- client.change_password (client.py line 138). -/
def EjabberdAPIClient.change_password (c : EjabberdAPIClient) (user newpass : PyVal)
    (transport : TransportCall → Except PyError Dict) :
    Except PyError PyVal × List TransportCall :=
  call_api .changePassword c.context c.auth [("user", user), ("newpass", newpass)] transport

/-- client.check_password_hash (client.py line 150). -/
def EjabberdAPIClient.check_password_hash (c : EjabberdAPIClient) (user password : PyVal)
    (transport : TransportCall → Except PyError Dict) :
    Except PyError PyVal × List TransportCall :=
  call_api .checkPasswordHash c.context c.auth [("user", user), ("password", password)] transport

/-- client.set_nickname (client.py line 162). -/
def EjabberdAPIClient.set_nickname (c : EjabberdAPIClient) (user nickname : PyVal)
    (transport : TransportCall → Except PyError Dict) :
    Except PyError PyVal × List TransportCall :=
  call_api .setNickname c.context c.auth [("user", user), ("nickname", nickname)] transport

/-! ## Object identity: the copy of the caller arguments

`call_api` above works on dict values, where Python mutation is invisible. To
settle the claim about `copy.copy(kwargs)` (client.py line 180) the dispatch
is restated over a store of dict objects, making explicit which objects each
step reads, allocates and mutates: the caller mapping is one object in the
store, the copy is a fresh object, and the keyword unpacking of line 183
(`**arguments`) and the hook return values are fresh objects again, so no
step ever writes to the caller object. -/

/-- A store of Python dict objects; a reference is an index into it. -/
structure Store where
  dicts : List Dict

/-- Read the dict object behind a reference. -/
def Store.read (σ : Store) (r : Nat) : Dict :=
  σ.dicts.getD r []

/-- Allocate a fresh dict object, returning the extended store and the fresh
reference. -/
def Store.alloc (σ : Store) (d : Dict) : Store × Nat :=
  (⟨σ.dicts ++ [d]⟩, σ.dicts.length)

/-- _call_api over the store of dict objects: the caller supplies a reference
to its own kwargs object. Line 180 copies that object into a fresh one; line
183 passes the copy to transform_arguments by keyword unpacking, which builds
a fresh dict again, and rebinds the local name `arguments` to the dict the
hook returns (a fresh merged object for the spec-modelled default, no object
at all for the CheckPasswordHash arity TypeError); every later step only
reads. The outcome component coincides with `call_api` on the value the
caller reference holds (theorem `call_api_st_outcome`). -/
def call_api_st (op : ApiOp) (ctx auth : Dict) (σ : Store) (kwargsRef : Nat)
    (transport : TransportCall → Except PyError Dict) :
    Store × (Except PyError PyVal × List TransportCall) :=
  let copied := σ.alloc (σ.read kwargsRef)
  let σ₁ := copied.1
  let argsRef := copied.2
  match invokeTransformArguments op ctx (σ₁.read argsRef) with
  | .error e => (σ₁, (.error e, []))
  | .ok tArgs =>
      let transformed := σ₁.alloc tArgs
      let σ₂ := transformed.1
      let tRef := transformed.2
      match validate_arguments (API.arguments op) (σ₂.read tRef) with
      | .error e => (σ₂, (.error e, []))
      | .ok _ =>
          let tc : TransportCall :=
            { method := API.method op
              args := σ₂.read tRef
              auth := if API.authenticate op then some auth else Option.none }
          match transport tc with
          | .error e => (σ₂, (.error e, [tc]))
          | .ok response =>
              match invokeValidateResponse op ctx (σ₂.read tRef) response with
              | .error e => (σ₂, (.error e, [tc]))
              | .ok _ =>
                  match invokeTransformResponse op ctx (σ₂.read tRef) response with
                  | .error e => (σ₂, (.error e, [tc]))
                  | .ok r => (σ₂, (.ok r, [tc]))

/-! ## Concrete fixtures for closed evaluations -/

/-- A concrete client configuration. -/
def client0 : EjabberdAPIClient :=
  { host := "localhost"
    port := 4560
    username := "admin"
    password := "adminpw"
    xmpp_domain := "example.com"
    muc_service := "conference"
    protocol := "https"
    verbose := false }

/-- The call context of `client0`. -/
def ctx0 : Dict := client0.context

/-- The auth credentials of `client0`. -/
def auth0 : Dict := client0.auth

/-- A transport stub replying with an empty struct. -/
def transport0 : TransportCall → Except PyError Dict := fun _ => .ok []

/-- A transport stub replying with a zero result code. -/
def transportRes0 : TransportCall → Except PyError Dict := fun _ => .ok [("res", .int 0)]

/-- A concrete stand-in for the hash function of
pyejabberd/utils.py.format_password_hash_sha, used only to instantiate closed
evaluations; every general statement about CheckPasswordHash quantifies over
the hash function. -/
def sha1model : String → String := fun s => "sha1:" ++ s

/-! ## Lemmas about the validation loop and the dispatcher -/

theorem runValidator_error_isValidation (k : ValidatorKind) (v : PyVal) (e : PyError)
    (h : runValidator k v = .error e) : e.isValidationError = true := by
  have himp : ∀ m : String, e = PyError.validationError m → e.isValidationError = true := by
    intro m hm
    rw [hm]
    rfl
  cases k <;> cases v <;> simp only [runValidator] at h <;> (try split at h) <;>
    first
      | exact himp _ (Except.error.inj h).symm
      | simp at h

theorem validate_arguments_append_ok (ds₁ ds₂ : List APIArgument) (args : Dict)
    (h : validate_arguments ds₁ args = .ok ()) :
    validate_arguments (ds₁ ++ ds₂) args = validate_arguments ds₂ args := by
  induction ds₁ with
  | nil => rfl
  | cons d rest ih =>
      by_cases hc : (d.required && !(dcontains args d.name)) = true
      · simp only [validate_arguments, hc, if_true] at h
        exact absurd h (by simp)
      · simp only [validate_arguments, hc, if_false, Bool.false_eq_true, List.cons_append] at h ⊢
        cases hv : runValidator d.validator (dget args d.name .none) with
        | error e => simp [hv] at h
        | ok u => simp only [hv] at h ⊢; exact ih h

theorem validate_arguments_first_missing (ds₁ ds₂ : List APIArgument) (d : APIArgument)
    (args : Dict) (h₁ : validate_arguments ds₁ args = .ok ())
    (hreq : d.required = true) (hmiss : dlookup args d.name = Option.none) :
    validate_arguments (ds₁ ++ d :: ds₂) args
      = .error (.illegalArgument ("Missing required argument \"" ++ d.name ++ "\"")) := by
  rw [validate_arguments_append_ok _ _ _ h₁]
  simp [validate_arguments, hreq, dcontains, hmiss]

theorem validate_arguments_first_invalid (ds₁ ds₂ : List APIArgument) (d : APIArgument)
    (args : Dict) (v : PyVal) (e : PyError)
    (h₁ : validate_arguments ds₁ args = .ok ())
    (hv : dlookup args d.name = some v)
    (he : runValidator d.validator v = .error e) :
    validate_arguments (ds₁ ++ d :: ds₂) args = .error e := by
  rw [validate_arguments_append_ok _ _ _ h₁]
  simp [validate_arguments, dcontains, hv, dget, he]

theorem validate_arguments_error_kind (ds : List APIArgument) (args : Dict) (e : PyError)
    (h : validate_arguments ds args = .error e) :
    e.isIllegalArgument = true ∨ e.isValidationError = true := by
  induction ds with
  | nil => simp [validate_arguments] at h
  | cons d rest ih =>
      by_cases hc : (d.required && !(dcontains args d.name)) = true
      · simp only [validate_arguments, hc, if_true] at h
        have he : e = PyError.illegalArgument ("Missing required argument \"" ++ d.name ++ "\"") :=
          (Except.error.inj h).symm
        subst he
        exact Or.inl rfl
      · simp only [validate_arguments, hc, if_false, Bool.false_eq_true] at h
        cases hv : runValidator d.validator (dget args d.name .none) with
        | error e' =>
            simp only [hv] at h
            have he : e = e' := (Except.error.inj h).symm
            subst he
            exact Or.inr (runValidator_error_isValidation _ _ _ hv)
        | ok u =>
            simp only [hv] at h
            exact ih h

theorem validate_arguments_missing_errors (ds : List APIArgument) (args : Dict)
    (h : ∃ d, d ∈ ds ∧ d.required = true ∧ dlookup args d.name = Option.none) :
    ∃ e, validate_arguments ds args = .error e := by
  induction ds with
  | nil =>
      rcases h with ⟨d, hd, _⟩
      cases hd
  | cons d' rest ih =>
      by_cases hc : (d'.required && !(dcontains args d'.name)) = true
      · exact ⟨.illegalArgument ("Missing required argument \"" ++ d'.name ++ "\""),
          by simp [validate_arguments, hc]⟩
      · cases hv : runValidator d'.validator (dget args d'.name .none) with
        | error e =>
            exact ⟨e, by simp [validate_arguments, hc, hv]⟩
        | ok u =>
            rcases h with ⟨d, hd, hreq, hmiss⟩
            rcases List.mem_cons.mp hd with rfl | hmem
            · exact absurd (by simp [hreq, dcontains, hmiss]) hc
            · rcases ih ⟨d, hmem, hreq, hmiss⟩ with ⟨e, he⟩
              exact ⟨e, by simp [validate_arguments, hc, hv, he]⟩

theorem call_api_transform_error (op : ApiOp) (ctx auth kwargs : Dict)
    (transport : TransportCall → Except PyError Dict) (e : PyError)
    (h : invokeTransformArguments op ctx kwargs = .error e) :
    call_api op ctx auth kwargs transport = (.error e, []) := by
  simp [call_api, h]

theorem call_api_validate_error (op : ApiOp) (ctx auth kwargs : Dict)
    (transport : TransportCall → Except PyError Dict) (tArgs : Dict) (e : PyError)
    (h₁ : invokeTransformArguments op ctx kwargs = .ok tArgs)
    (h₂ : validate_arguments (API.arguments op) tArgs = .error e) :
    call_api op ctx auth kwargs transport = (.error e, []) := by
  simp [call_api, h₁, h₂]

/-- When transformation and validation both pass, the transport proxy is
invoked exactly once, with the transformed arguments mapping and the
credential slot the authenticate flag selects. -/
theorem call_api_log (op : ApiOp) (ctx auth kwargs : Dict)
    (transport : TransportCall → Except PyError Dict) (tArgs : Dict)
    (h₁ : invokeTransformArguments op ctx kwargs = .ok tArgs)
    (h₂ : validate_arguments (API.arguments op) tArgs = .ok ()) :
    (call_api op ctx auth kwargs transport).2
      = [⟨API.method op, tArgs, if API.authenticate op then some auth else Option.none⟩] := by
  simp only [call_api, h₁, h₂]
  split
  · rfl
  · split
    · rfl
    · split <;> rfl

theorem getD_append_length (l : List Dict) (d : Dict) :
    (l ++ [d]).getD l.length [] = d := by
  induction l with
  | nil => rfl
  | cons a t ih => simp [ih]

theorem getD_append_lt (l : List Dict) (d : Dict) (r : Nat) (h : r < l.length) :
    (l ++ [d]).getD r [] = l.getD r [] := by
  induction l generalizing r with
  | nil => cases h
  | cons a t ih =>
      cases r with
      | zero => rfl
      | succ r' => simpa using ih r' (Nat.lt_of_succ_lt_succ h)

/-- Reading a freshly allocated object yields the stored dict. -/
theorem Store.read_alloc_self (σ : Store) (d : Dict) :
    Store.read (σ.alloc d).1 (σ.alloc d).2 = d := by
  simp [Store.alloc, Store.read, getD_append_length σ.dicts d]

/-- Allocation leaves every existing object untouched. -/
theorem Store.read_alloc_lt (σ : Store) (d : Dict) (r : Nat) (h : r < σ.dicts.length) :
    Store.read (σ.alloc d).1 r = σ.read r := by
  simpa [Store.alloc, Store.read] using getD_append_lt σ.dicts d r h

/-- Allocation extends the store. -/
theorem Store.alloc_length (σ : Store) (d : Dict) :
    σ.dicts.length ≤ (σ.alloc d).1.dicts.length := by
  simp [Store.alloc]

/-- The store-level dispatch computes the same outcome as the value-level
dispatch applied to the dict the caller reference holds. -/
theorem call_api_st_outcome (op : ApiOp) (ctx auth : Dict) (σ : Store) (kwargsRef : Nat)
    (transport : TransportCall → Except PyError Dict) :
    (call_api_st op ctx auth σ kwargsRef transport).2
      = call_api op ctx auth (σ.read kwargsRef) transport := by
  simp only [call_api_st, call_api, Store.read_alloc_self]
  split
  · rfl
  · split
    · rfl
    · split
      · rfl
      · split
        · rfl
        · split <;> rfl

/-! ## Claims -/

/-- C1 (amended): when some required argument name is absent from the
transformed arguments mapping, the dispatcher raises before any transport
invocation; the error is the IllegalArgumentError naming the missing argument
provided every argument descriptor appearing earlier in the operation list of
descriptors passes its check, and in general it is either that
IllegalArgumentError or the ValidationError of an earlier failing descriptor,
with the transport proxy never invoked in either case. -/
theorem C1_missing_required :
    (∀ (op : ApiOp) (ctx auth kwargs : Dict)
        (transport : TransportCall → Except PyError Dict) (tArgs : Dict)
        (ds₁ : List APIArgument) (d : APIArgument) (ds₂ : List APIArgument),
        invokeTransformArguments op ctx kwargs = .ok tArgs →
        API.arguments op = ds₁ ++ d :: ds₂ →
        validate_arguments ds₁ tArgs = .ok () →
        d.required = true →
        dlookup tArgs d.name = Option.none →
        call_api op ctx auth kwargs transport
          = (.error (.illegalArgument ("Missing required argument \"" ++ d.name ++ "\"")), []))
    ∧ (∀ (op : ApiOp) (ctx auth kwargs : Dict)
        (transport : TransportCall → Except PyError Dict) (tArgs : Dict),
        invokeTransformArguments op ctx kwargs = .ok tArgs →
        (∃ d, d ∈ API.arguments op ∧ d.required = true ∧ dlookup tArgs d.name = Option.none) →
        (call_api op ctx auth kwargs transport).2 = []
          ∧ ∃ e, (call_api op ctx auth kwargs transport).1 = .error e
              ∧ (e.isIllegalArgument = true ∨ e.isValidationError = true)) := by
  constructor
  · intro op ctx auth kwargs transport tArgs ds₁ d ds₂ h₁ hsplit hok hreq hmiss
    apply call_api_validate_error op ctx auth kwargs transport tArgs _ h₁
    rw [hsplit]
    exact validate_arguments_first_missing ds₁ ds₂ d tArgs hok hreq hmiss
  · intro op ctx auth kwargs transport tArgs h₁ hex
    rcases validate_arguments_missing_errors (API.arguments op) tArgs hex with ⟨e, he⟩
    have hcall := call_api_validate_error op ctx auth kwargs transport tArgs e h₁ he
    rw [hcall]
    exact ⟨rfl, e, rfl, validate_arguments_error_kind _ _ _ he⟩

/-- C1 witness: registering with only the user argument (password required
and absent) yields the IllegalArgumentError naming password, with no
transport invocation. -/
theorem C1_witness :
    call_api .register ctx0 auth0 [("user", PyVal.str "bob")] transport0
      = (.error (.illegalArgument "Missing required argument \"password\""), []) :=
  C1_missing_required.1 .register ctx0 auth0 [("user", PyVal.str "bob")] transport0
    [("user", PyVal.str "bob"), ("host", PyVal.str "example.com"),
     ("service", PyVal.str "conference")]
    [StringArgument "user", StringArgument "host"] (StringArgument "password") []
    rfl rfl rfl rfl rfl

/-- C1 counterexample: dispatching Register with a non-textual user and no
password leaves the required password absent from the transformed mapping,
yet the call raises the ValidationError of the earlier user argument, not an
IllegalArgumentError (the transport is still never invoked). -/
theorem C1_counterexample :
    invokeTransformArguments .register ctx0 [("user", PyVal.int 42)]
        = .ok [("user", PyVal.int 42), ("host", PyVal.str "example.com"),
               ("service", PyVal.str "conference")]
    ∧ StringArgument "password" ∈ API.arguments .register
    ∧ (StringArgument "password").required = true
    ∧ dlookup [("user", PyVal.int 42), ("host", PyVal.str "example.com"),
               ("service", PyVal.str "conference")] "password" = Option.none
    ∧ call_api .register ctx0 auth0 [("user", PyVal.int 42)] transport0
        = (.error (.validationError "not a valid string value: 42"), [])
    ∧ outcomeIsIllegalArgument
        (call_api .register ctx0 auth0 [("user", PyVal.int 42)] transport0).1 = false := by
  refine ⟨rfl, ?_, rfl, rfl, rfl, rfl⟩
  simp [API.arguments]

/-- C2 (amended): when an argument descriptor finds a value that fails its
validator and every earlier descriptor passes its check, the dispatcher
raises that ValidationError, processes no later descriptor (truncating the
descriptor list right after the failing one yields the same error), and never
invokes the transport proxy; when an earlier descriptor is required and
absent, the IllegalArgumentError for it is raised first instead. -/
theorem C2_validator_failure :
    ∀ (op : ApiOp) (ctx auth kwargs : Dict)
      (transport : TransportCall → Except PyError Dict) (tArgs : Dict)
      (ds₁ : List APIArgument) (d : APIArgument) (ds₂ : List APIArgument)
      (v : PyVal) (e : PyError),
      invokeTransformArguments op ctx kwargs = .ok tArgs →
      API.arguments op = ds₁ ++ d :: ds₂ →
      validate_arguments ds₁ tArgs = .ok () →
      dlookup tArgs d.name = some v →
      runValidator d.validator v = .error e →
      e.isValidationError = true
        ∧ validate_arguments (ds₁ ++ [d]) tArgs = .error e
        ∧ call_api op ctx auth kwargs transport = (.error e, []) := by
  intro op ctx auth kwargs transport tArgs ds₁ d ds₂ v e h₁ hsplit hok hv he
  refine ⟨runValidator_error_isValidation _ _ _ he,
    validate_arguments_first_invalid ds₁ [] d tArgs v e hok hv he, ?_⟩
  apply call_api_validate_error op ctx auth kwargs transport tArgs e h₁
  rw [hsplit]
  exact validate_arguments_first_invalid ds₁ ds₂ d tArgs v e hok hv he

/-- C2 witness: registering with a textual user and an integer password
raises the ValidationError of the password validator, truncation after the
password descriptor gives the same error, and the transport is never
invoked. -/
theorem C2_witness :
    PyError.isValidationError (.validationError "not a valid string value: 42") = true
    ∧ validate_arguments
        ([StringArgument "user", StringArgument "host"] ++ [StringArgument "password"])
        [("user", PyVal.str "bob"), ("password", PyVal.int 42),
         ("host", PyVal.str "example.com"), ("service", PyVal.str "conference")]
        = .error (.validationError "not a valid string value: 42")
    ∧ call_api .register ctx0 auth0 [("user", PyVal.str "bob"), ("password", PyVal.int 42)]
        transport0
        = (.error (.validationError "not a valid string value: 42"), []) :=
  C2_validator_failure .register ctx0 auth0
    [("user", PyVal.str "bob"), ("password", PyVal.int 42)] transport0
    [("user", PyVal.str "bob"), ("password", PyVal.int 42),
     ("host", PyVal.str "example.com"), ("service", PyVal.str "conference")]
    [StringArgument "user", StringArgument "host"] (StringArgument "password") []
    (PyVal.int 42) (.validationError "not a valid string value: 42")
    rfl rfl rfl rfl rfl

/-- C2 counterexample: dispatching Register with only an integer password
supplies a value failing its validator, yet the call raises the
IllegalArgumentError for the earlier missing user argument, not a
ValidationError (the transport is still never invoked). -/
theorem C2_counterexample :
    StringArgument "password" ∈ API.arguments .register
    ∧ dlookup [("password", PyVal.int 42), ("host", PyVal.str "example.com"),
               ("service", PyVal.str "conference")] "password" = some (PyVal.int 42)
    ∧ runValidator (StringArgument "password").validator (PyVal.int 42)
        = .error (.validationError "not a valid string value: 42")
    ∧ call_api .register ctx0 auth0 [("password", PyVal.int 42)] transport0
        = (.error (.illegalArgument "Missing required argument \"user\""), [])
    ∧ outcomeIsValidationError
        (call_api .register ctx0 auth0 [("password", PyVal.int 42)] transport0).1 = false := by
  refine ⟨?_, rfl, rfl, rfl, rfl⟩
  simp [API.arguments]

/-- C3: dispatching Register never reaches the res inspection: the
validate_response invocation of client.py line 207 supplies four arguments to
the three-parameter override of definitions.py line 31 and raises a
TypeError for every transport reply (first conjunct, at reply res equal 1
after the transport was invoked once); the override bodies do implement the
claimed res semantics: res equal 1 raises UserAlreadyRegisteredError naming
the user, res equal 0 validates and transforms to True, and any other or
missing res transforms to False (remaining conjuncts). -/
theorem C3_register_res_semantics :
    (client0.register (PyVal.str "bob") (PyVal.str "pw") (fun _ => .ok [("res", PyVal.int 1)])
        = (.error (.typeError validateResponseArityMsg),
           [⟨"register",
             [("user", PyVal.str "bob"), ("password", PyVal.str "pw"),
              ("host", PyVal.str "example.com"), ("service", PyVal.str "conference")],
             Option.none⟩]))
    ∧ Register.validate_response [("user", PyVal.str "bob")] [("res", PyVal.int 1)]
        = .error (.userAlreadyRegistered "User with username bob already exists")
    ∧ Register.validate_response [("user", PyVal.str "bob")] [("res", PyVal.int 0)] = .ok ()
    ∧ Register.transform_response [("res", PyVal.int 0)] = PyVal.bool true
    ∧ Register.transform_response [("res", PyVal.int 2)] = PyVal.bool false
    ∧ Register.transform_response [] = PyVal.bool false :=
  ⟨rfl, rfl, rfl, rfl, rfl, rfl⟩

/-- C4: dispatching CheckPasswordHash never produces the hashed mapping: the
transform_arguments invocation of client.py line 183 passes the context as a
positional argument to the zero-positional-parameter override of
definitions.py line 61 and raises a TypeError, with the transport never
invoked (first conjunct); the override body itself, applied to the caller
arguments as the claim intends, does produce a mapping binding passwordhash
to the hash of the supplied password and hashmethod to "sha", with the
plaintext password key absent (remaining conjuncts, for every hash
function). -/
theorem C4_check_password_hash_transform :
    (client0.check_password_hash (PyVal.str "bob") (PyVal.str "secret") transport0
        = (.error (.typeError transformArgumentsArityMsg), []))
    ∧ (∀ sha1 : String → String,
        CheckPasswordHash.transform_arguments sha1
            [("user", PyVal.str "bob"), ("password", PyVal.str "secret")]
          = .ok [("user", PyVal.str "bob"), ("passwordhash", PyVal.str (sha1 "secret")),
                 ("hashmethod", PyVal.str "sha")])
    ∧ (∀ sha1 : String → String,
        dlookup [("user", PyVal.str "bob"), ("passwordhash", PyVal.str (sha1 "secret")),
                 ("hashmethod", PyVal.str "sha")] "password" = Option.none) :=
  ⟨rfl, fun _ => rfl, fun _ => rfl⟩

/-- C5 (amended): every public client method whose operation inherits the
default argument transform (register, unregister, change_password,
set_nickname, registered_users) has the host and service values of the Call
Context merged into its arguments before the required-argument check, so a
caller supplying only the domain-relevant arguments passes argument
validation and the transport is invoked exactly once, with the injected host
bound in the transformed mapping; check_password_hash is the exception: its
operation overrides the transform with a hook that accepts no context, the
invocation raises a TypeError, and no injection or validation happens (see
the counterexample). -/
theorem C5_context_injection :
    (∀ (c : EjabberdAPIClient) (user password : String)
        (transport : TransportCall → Except PyError Dict),
        (c.register (.str user) (.str password) transport).2
          = [⟨"register",
              [("user", PyVal.str user), ("password", PyVal.str password),
               ("host", PyVal.str c.xmpp_domain), ("service", PyVal.str c.muc_service)],
              Option.none⟩])
    ∧ (∀ (c : EjabberdAPIClient) (user : String)
        (transport : TransportCall → Except PyError Dict),
        (c.unregister (.str user) transport).2
          = [⟨"unregister",
              [("user", PyVal.str user), ("host", PyVal.str c.xmpp_domain),
               ("service", PyVal.str c.muc_service)],
              Option.none⟩])
    ∧ (∀ (c : EjabberdAPIClient) (user newpass : String)
        (transport : TransportCall → Except PyError Dict),
        (c.change_password (.str user) (.str newpass) transport).2
          = [⟨"change_password",
              [("user", PyVal.str user), ("newpass", PyVal.str newpass),
               ("host", PyVal.str c.xmpp_domain), ("service", PyVal.str c.muc_service)],
              Option.none⟩])
    ∧ (∀ (c : EjabberdAPIClient) (user nickname : String)
        (transport : TransportCall → Except PyError Dict),
        (c.set_nickname (.str user) (.str nickname) transport).2
          = [⟨"set_nickname",
              [("user", PyVal.str user), ("nickname", PyVal.str nickname),
               ("host", PyVal.str c.xmpp_domain), ("service", PyVal.str c.muc_service)],
              Option.none⟩])
    ∧ (∀ (c : EjabberdAPIClient) (transport : TransportCall → Except PyError Dict),
        (c.registered_users transport).2
          = [⟨"registered_users",
              [("host", PyVal.str c.xmpp_domain), ("service", PyVal.str c.muc_service)],
              Option.none⟩]) := by
  refine ⟨?_, ?_, ?_, ?_, ?_⟩
  · intro c user password transport
    exact call_api_log .register c.context c.auth _ transport _ rfl rfl
  · intro c user transport
    exact call_api_log .unRegister c.context c.auth _ transport _ rfl rfl
  · intro c user newpass transport
    exact call_api_log .changePassword c.context c.auth _ transport _ rfl rfl
  · intro c user nickname transport
    exact call_api_log .setNickname c.context c.auth _ transport _ rfl rfl
  · intro c transport
    exact call_api_log .registeredUsers c.context c.auth _ transport _ rfl rfl

/-- C5 counterexample: check_password_hash is a public client method, its
caller supplies only the domain-relevant user and password, yet no host is
injected and argument validation is never passed: the transform invocation
raises a TypeError and the transport is never invoked. -/
theorem C5_counterexample :
    invokeTransformArguments .checkPasswordHash ctx0
        [("user", PyVal.str "bob"), ("password", PyVal.str "secret")]
        = .error (.typeError transformArgumentsArityMsg)
    ∧ client0.check_password_hash (PyVal.str "bob") (PyVal.str "secret") transportRes0
        = (.error (.typeError transformArgumentsArityMsg), []) :=
  ⟨rfl, rfl⟩

/-- C6: whenever a dispatch invokes the transport, the invocation carries no
credentials (the single-argument form, auth slot empty) and its single
argument is exactly the transformed arguments mapping, the authenticate flag
being false for every operation. -/
theorem C6_single_argument_invocation :
    ∀ (op : ApiOp) (ctx auth kwargs : Dict)
      (transport : TransportCall → Except PyError Dict) (tc : TransportCall),
      (call_api op ctx auth kwargs transport).2 = [tc] →
      tc.auth = Option.none
        ∧ invokeTransformArguments op ctx kwargs = .ok tc.args
        ∧ API.authenticate op = false := by
  intro op ctx auth kwargs transport tc h
  cases h₁ : invokeTransformArguments op ctx kwargs with
  | error e =>
      rw [call_api_transform_error op ctx auth kwargs transport e h₁] at h
      exact absurd h (by simp)
  | ok tArgs =>
      cases h₂ : validate_arguments (API.arguments op) tArgs with
      | error e =>
          rw [call_api_validate_error op ctx auth kwargs transport tArgs e h₁ h₂] at h
          exact absurd h (by simp)
      | ok u =>
          cases u
          rw [call_api_log op ctx auth kwargs transport tArgs h₁ h₂] at h
          injection h with h1 h2
          subst h1
          exact ⟨rfl, rfl, rfl⟩

/-- C6 witness: a registered_users dispatch against a replying transport
invokes it once, without credentials, with the transformed mapping. -/
theorem C6_witness :
    TransportCall.auth
        ⟨"registered_users",
         [("host", PyVal.str "example.com"), ("service", PyVal.str "conference")],
         Option.none⟩ = Option.none
    ∧ invokeTransformArguments .registeredUsers ctx0 []
        = .ok [("host", PyVal.str "example.com"), ("service", PyVal.str "conference")]
    ∧ API.authenticate .registeredUsers = false :=
  C6_single_argument_invocation .registeredUsers ctx0 auth0 [] transportRes0
    ⟨"registered_users",
     [("host", PyVal.str "example.com"), ("service", PyVal.str "conference")],
     Option.none⟩ rfl

/-- C7: dispatching RegisteredUsers with an empty reply does not return the
empty list: the transport is invoked once, but the transform_response
invocation of client.py line 210 supplies four arguments to the
three-parameter override of definitions.py line 23 and raises a TypeError
(first conjunct); the override body itself does return the empty list for a
reply without a users key, and the users list when the key is present
(remaining conjuncts). -/
theorem C7_registered_users_empty_reply :
    (client0.registered_users transport0
        = (.error (.typeError transformResponseArityMsg),
           [⟨"registered_users",
             [("host", PyVal.str "example.com"), ("service", PyVal.str "conference")],
             Option.none⟩]))
    ∧ RegisteredUsers.transform_response [] = PyVal.list []
    ∧ RegisteredUsers.transform_response
        [("users", PyVal.list [PyVal.str "alice", PyVal.str "bob"])]
        = PyVal.list [PyVal.str "alice", PyVal.str "bob"] :=
  ⟨rfl, rfl, rfl⟩

/-- The GetRoomOptions reply of the claim: one options entry pairing the name
title with the value Room A. -/
def reply8 : Dict :=
  [("options", .list
      [.dict [("option", .list
          [.dict [("name", .str "title")], .dict [("value", .str "Room A")]])]])]

/-- C8: the GetRoomOptions response transform body does fold the options list
of (name, value) pairs into a single mapping, sending the claim instance to
the singleton title mapping (first conjunct); dispatching GetRoomOptions,
however, never reaches that body: the transform_response invocation of
client.py line 210 supplies four arguments to the three-parameter override of
definitions.py line 109 and raises a TypeError (second conjunct). -/
theorem C8_get_room_options_fold :
    GetRoomOptions.transform_response reply8 = .ok [("title", PyVal.str "Room A")]
    ∧ (call_api .getRoomOptions ctx0 auth0 [("name", PyVal.str "room1")] (fun _ => .ok reply8)
        = (.error (.typeError transformResponseArityMsg),
           [⟨"get_room_options",
             [("name", PyVal.str "room1"), ("host", PyVal.str "example.com"),
              ("service", PyVal.str "conference")],
             Option.none⟩])) :=
  ⟨rfl, rfl⟩

/-- C9: the dispatch never writes to the caller kwargs object: client.py line
180 copies it into a fresh object before any transformation, the keyword
unpacking of line 183 and the hook results are fresh objects again, and every
later stage only reads, so after the call the caller mapping holds exactly
the bindings it held before, for every operation, including the ones whose
argument transform removes or renames keys. -/
theorem C9_caller_arguments_preserved :
    ∀ (op : ApiOp) (ctx auth : Dict) (σ : Store) (kwargsRef : Nat)
      (transport : TransportCall → Except PyError Dict),
      kwargsRef < σ.dicts.length →
      Store.read (call_api_st op ctx auth σ kwargsRef transport).1 kwargsRef
        = σ.read kwargsRef := by
  intro op ctx auth σ kwargsRef transport h
  have h₁ : Store.read (σ.alloc (σ.read kwargsRef)).1 kwargsRef = σ.read kwargsRef :=
    Store.read_alloc_lt σ _ kwargsRef h
  have hlen : kwargsRef < (σ.alloc (σ.read kwargsRef)).1.dicts.length :=
    Nat.lt_of_lt_of_le h (Store.alloc_length σ _)
  simp only [call_api_st, Store.read_alloc_self]
  cases hta : invokeTransformArguments op ctx (σ.read kwargsRef) with
  | error e => simpa using h₁
  | ok tArgs =>
      have h₂ : Store.read ((σ.alloc (σ.read kwargsRef)).1.alloc tArgs).1 kwargsRef
          = σ.read kwargsRef := by
        rw [Store.read_alloc_lt _ _ _ hlen]
        exact h₁
      simp only
      split
      · exact h₂
      · split
        · exact h₂
        · split
          · exact h₂
          · split
            · exact h₂
            · split <;> exact h₂

/-- A store holding the caller kwargs of a register call as object 0. -/
def store0 : Store := ⟨[[("user", PyVal.str "bob"), ("password", PyVal.str "pw")]]⟩

/-- C9 witness: a register dispatch over the store leaves the caller object
unchanged. -/
theorem C9_witness :
    Store.read (call_api_st .register ctx0 auth0 store0 0 transportRes0).1 0
      = Store.read store0 0 :=
  C9_caller_arguments_preserved .register ctx0 auth0 store0 0 transportRes0 (by decide)

/-- C10: the transform_response bodies of the six res-comparing operations
all map a reply without a res key to False rather than an error (first six
conjuncts); an actual dispatch, however, raises a TypeError at the
transform_response invocation of client.py line 210 (four arguments to
three-parameter overrides) instead of returning that False (last
conjunct). -/
theorem C10_missing_res_is_false :
    UnRegister.transform_response [] = PyVal.bool false
    ∧ ChangePassword.transform_response [] = PyVal.bool false
    ∧ CheckPasswordHash.transform_response [] = PyVal.bool false
    ∧ SetNickname.transform_response [] = PyVal.bool false
    ∧ CreateRoom.transform_response [] = PyVal.bool false
    ∧ DestroyRoom.transform_response [] = PyVal.bool false
    ∧ (client0.unregister (PyVal.str "bob") transport0
        = (.error (.typeError transformResponseArityMsg),
           [⟨"unregister",
             [("user", PyVal.str "bob"), ("host", PyVal.str "example.com"),
              ("service", PyVal.str "conference")],
             Option.none⟩])) :=
  ⟨rfl, rfl, rfl, rfl, rfl, rfl, rfl⟩

end Pyejabberd
